import Mathlib

/-!
A shallow embedding of the food-delivery backend (`main.py` / `schemas.py`).

Modelling conventions:
  - Python floats are modelled as exact rationals (`ℚ`); `round(x, 2)` is
    modelled as rounding `x * 100` to the nearest integer and dividing by 100
    (tie-breaking is not load-bearing for any claim considered here).
  - MongoDB documents read back through `.get(field, default)` are modelled
    with `Option`-typed fields and `Option.getD`.
  - Each HTTP handler becomes a pure function on an explicit `Store` state;
    a raised `HTTPException` (or an uncaught Python exception) becomes an
    `Except.error` and leaves the store unchanged, since in the source no
    write precedes the raising point in any handler considered here.
  - The document-store layer (`database.py`, not part of the sources) is
    modelled from the spec: `create` appends a record with a freshly assigned
    string identifier, `find` returns up to `limit` records matching the
    filter in insertion order.
-/

set_option autoImplicit false

namespace FoodDelivery

/- Batteries marks the `Rat` arithmetic operations `irreducible`, which blocks
`decide`/`rfl` evaluation on concrete fixtures; restore default reducibility
for this development. -/
attribute [local semireducible] Rat.ofScientific Rat.mul Rat.inv Rat.add Rat.sub

/-! ### Identifiers (`bson.ObjectId` and the `oid` helper) -/

/-- A hexadecimal digit, as accepted inside a BSON ObjectId string. -/
def isHexChar (c : Char) : Bool :=
  (('0' ≤ c) && (c ≤ '9')) || (('a' ≤ c) && (c ≤ 'f')) || (('A' ≤ c) && (c ≤ 'F'))

/-- `ObjectId(s)` succeeds on a string exactly when it is 24 hex characters. -/
def isValidObjectId (s : String) : Bool :=
  s.length == 24 && s.toList.all isHexChar

/-- Errors surfaced by the handlers.  `invalidId` is the
`HTTPException(400, "Invalid id")` raised by `oid`; `restaurantNotFound` is the
`HTTPException(404, "Restaurant not found")` of `create_menu_item`;
`attributeError` is the uncaught `AttributeError` raised when `.get` is called
on the `None` returned by a failed `find_one` (surfaces as a 500). -/
inductive ApiError where
  | invalidId
  | restaurantNotFound
  | attributeError
  deriving Repr, DecidableEq

/-- The HTTP status each error surfaces as. -/
def ApiError.status : ApiError → Nat
  | .invalidId => 400
  | .restaurantNotFound => 404
  | .attributeError => 500

/-- `oid(id_str)`: validate a client-supplied identifier, raising a 400 on
malformed input. -/
def oid (s : String) : Except ApiError String :=
  if isValidObjectId s then Except.ok s else Except.error ApiError.invalidId

/-! ### Pydantic request models (`schemas.py` and `CreateOrder` in `main.py`) -/

/-- `Restaurant` payload. -/
structure Restaurant where
  name : String
  description : Option String
  cuisine : List String
  rating : ℚ
  delivery_time_mins : Int
  image_url : Option String
  location : Option String
  deriving Repr, DecidableEq

/-- Pydantic validation of a `Restaurant` payload (`ge`/`le` field bounds). -/
def Restaurant.Valid (r : Restaurant) : Prop :=
  0 ≤ r.rating ∧ r.rating ≤ 5 ∧ 5 ≤ r.delivery_time_mins ∧ r.delivery_time_mins ≤ 120

/-- `MenuItem` payload. -/
structure MenuItem where
  restaurant_id : String
  name : String
  description : Option String
  price : ℚ
  veg : Bool
  spicy : Bool
  image_url : Option String
  category : Option String
  deriving Repr, DecidableEq

/-- Pydantic validation of a `MenuItem` payload (`price` carries `ge=0`). -/
def MenuItem.Valid (m : MenuItem) : Prop := 0 ≤ m.price

/-- `OrderItem` model.  Note: `price` is a bare `float` with no `ge` bound;
only `quantity` carries `ge=1`. -/
structure OrderItem where
  item_id : String
  name : String
  price : ℚ
  quantity : Int
  deriving Repr, DecidableEq

/-- Pydantic validation of an `OrderItem`: only `quantity ≥ 1` is enforced. -/
def OrderItem.Valid (it : OrderItem) : Prop := 1 ≤ it.quantity

instance (it : OrderItem) : Decidable it.Valid := by
  unfold OrderItem.Valid; infer_instance

/-- `CreateOrder` request body of `POST /orders`.  Note: `items` is a bare
`List[OrderItem]` with no non-emptiness constraint. -/
structure CreateOrder where
  restaurant_id : String
  customer_name : String
  customer_phone : String
  customer_address : String
  items : List OrderItem
  deriving Repr, DecidableEq

/-- Pydantic validation of a `CreateOrder`: each embedded item is validated. -/
def CreateOrder.Valid (p : CreateOrder) : Prop := ∀ it ∈ p.items, it.Valid

instance (p : CreateOrder) : Decidable p.Valid := by
  unfold CreateOrder.Valid; infer_instance

/-- `Order` model, as constructed and persisted by `place_order`. -/
structure Order where
  restaurant_id : String
  restaurant_name : String
  customer_name : String
  customer_phone : String
  customer_address : String
  items : List OrderItem
  total : ℚ
  status : String
  deriving Repr, DecidableEq

/-! ### Stored documents and the document store -/

/-- A stored restaurant document.  Fields read back via `.get` are `Option`s:
the schema always writes `name`, but the store itself is schema-flexible. -/
structure RestaurantRec where
  _id : String
  name : Option String
  description : Option String
  cuisine : List String
  rating : ℚ
  delivery_time_mins : Int
  image_url : Option String
  location : Option String
  deriving Repr, DecidableEq

/-- A stored menu-item document; `name` and `price` are read back via `.get`
in `place_order`, so they are `Option`s here. -/
structure MenuRec where
  _id : String
  restaurant_id : String
  name : Option String
  description : Option String
  price : Option ℚ
  veg : Bool
  spicy : Bool
  image_url : Option String
  category : Option String
  deriving Repr, DecidableEq

/-- A stored order document. -/
structure OrderRec where
  _id : String
  order : Order
  deriving Repr, DecidableEq

/-- The document store: one list per collection, in insertion order, plus the
counter from which fresh identifiers are assigned.

Modelled from the spec: `database.py` is not among the sources; the spec says
the store persists records into named collections and assigns unique
string identifiers. -/
structure Store where
  restaurants : List RestaurantRec
  menuitems : List MenuRec
  orders : List OrderRec
  nextId : Nat
  deriving Repr, DecidableEq

/-- The empty store. -/
def Store.empty : Store := { restaurants := [], menuitems := [], orders := [], nextId := 0 }

/-- Modelled from the spec: the store-assigned identifier for the `n`-th
created document (string form, unique per `n`). -/
def freshId (n : Nat) : String := "id" ++ toString n

/-- Modelled from the spec: `create("restaurant", payload)` — persist the
validated payload as a document and return the new id. -/
def createRestaurantDoc (s : Store) (r : Restaurant) : Store × String :=
  let id := freshId s.nextId
  ({ s with
      restaurants := s.restaurants ++
        [{ _id := id, name := some (r.name), description := r.description,
           cuisine := r.cuisine, rating := r.rating,
           delivery_time_mins := r.delivery_time_mins,
           image_url := r.image_url, location := r.location }]
      nextId := s.nextId + 1 },
   id)

/-- The stored document written for a validated `MenuItem` payload. -/
def menuRecOf (m : MenuItem) (id : String) : MenuRec :=
  { _id := id, restaurant_id := m.restaurant_id, name := some (m.name),
    description := m.description, price := some (m.price), veg := m.veg,
    spicy := m.spicy, image_url := m.image_url, category := m.category }

/-- Modelled from the spec: `create("menuitem", payload)`. -/
def createMenuItemDoc (s : Store) (m : MenuItem) : Store × String :=
  let id := freshId s.nextId
  ({ s with
      menuitems := s.menuitems ++ [menuRecOf m id]
      nextId := s.nextId + 1 },
   id)

/-- Modelled from the spec: `create("order", order_doc)`. -/
def createOrderDoc (s : Store) (o : Order) : Store × String :=
  let id := freshId s.nextId
  ({ s with orders := s.orders ++ [{ _id := id, order := o }], nextId := s.nextId + 1 }, id)

/-- `db["restaurant"].find_one({"_id": oid})`: the stored restaurant with the
given id, if any. -/
def findRestaurant (s : Store) (rid : String) : Option RestaurantRec :=
  s.restaurants.find? (fun r => r._id == rid)

/-! ### Menu endpoints -/

/-- `POST /menu` (`create_menu_item`): validate the referenced restaurant id,
404 when it does not resolve, otherwise persist and return the new id. -/
def create_menu_item (s : Store) (payload : MenuItem) : Except ApiError (Store × String) :=
  match oid payload.restaurant_id with
  | Except.error e => Except.error e
  | Except.ok _ =>
      match findRestaurant s payload.restaurant_id with
      | none => Except.error ApiError.restaurantNotFound
      | some _ => Except.ok (createMenuItemDoc s payload)

/-- `GET /menu/{restaurant_id}` (`list_menu`): up to 200 stored menu items
whose `restaurant_id` equals the given string. -/
def list_menu (s : Store) (restaurant_id : String) : List MenuRec :=
  (s.menuitems.filter (fun m => m.restaurant_id == restaurant_id)).take 200

/-! ### Order placement (`place_order`) -/

/-- The `menu_items` dict of `place_order`: stored menu items filtered by
`restaurant_id`, keyed by id.  A Python dict comprehension lets a later entry
overwrite an earlier one with the same key, hence the `reverse`. -/
def menuLookup (s : Store) (rid : String) (item_id : String) : Option MenuRec :=
  ((s.menuitems.filter (fun m => m.restaurant_id == rid)).reverse).find?
    (fun m => m._id == item_id)

/-- One iteration of the reconciliation loop: when the submitted `item_id`
matches the loaded menu, take name/price from the stored document (falling
back to the client value field-by-field via `.get`); otherwise keep the
client-submitted name and price. -/
def reconcileItem (s : Store) (rid : String) (it : OrderItem) : OrderItem :=
  match menuLookup s rid it.item_id with
  | some m =>
      { item_id := it.item_id, name := m.name.getD it.name,
        price := m.price.getD it.price, quantity := it.quantity }
  | none =>
      { item_id := it.item_id, name := it.name, price := it.price,
        quantity := it.quantity }

/-- The running `total` accumulated by the loop: `price × quantity` summed
over every line, the price being the reconciled one. -/
def rawTotal (s : Store) (rid : String) (items : List OrderItem) : ℚ :=
  (items.map (fun it => (reconcileItem s rid it).price * (it.quantity : ℚ))).sum

/-- Python's `round(x, 2)` on the exact rational value: scale by 100, round to
the nearest integer taking halves to even (Python's rounding mode), rescale. -/
def round2 (q : ℚ) : ℚ :=
  let x := q * 100
  let fl : ℤ := Int.fdiv x.num (x.den : ℤ)
  let rem : ℤ := x.num - fl * (x.den : ℤ)
  let n : ℤ :=
    if 2 * rem < (x.den : ℤ) then fl
    else if (x.den : ℤ) < 2 * rem then fl + 1
    else if fl % 2 = 0 then fl else fl + 1
  (n : ℚ) / 100

/-- The `Order(...)` document built at the end of `place_order`, given the
restaurant document that `find_one` returned. -/
def orderDoc (s : Store) (p : CreateOrder) (r : RestaurantRec) : Order :=
  { restaurant_id := p.restaurant_id
    restaurant_name := r.name.getD "Restaurant"
    customer_name := p.customer_name
    customer_phone := p.customer_phone
    customer_address := p.customer_address
    items := p.items.map (reconcileItem s p.restaurant_id)
    total := round2 (rawTotal s p.restaurant_id p.items)
    status := "placed" }

/-- The `{id, total, status}` body returned by `place_order`. -/
structure OrderResponse where
  id : String
  total : ℚ
  status : String
  deriving Repr, DecidableEq

/-- `POST /orders` (`place_order`).  The source computes the reconciled lines
and total first (pure), then evaluates
`find_one({"_id": oid(payload.restaurant_id)} or {}).get("name", "Restaurant")`:
`oid` raises a 400 on a malformed id, and — because the `or {}` sits inside
the argument of `find_one`, not around its result — a `find_one` miss returns
`None` and the `.get` call raises `AttributeError`.  Only on success is the
order persisted. -/
def place_order (s : Store) (p : CreateOrder) : Except ApiError (Store × OrderResponse) :=
  match oid p.restaurant_id with
  | Except.error e => Except.error e
  | Except.ok _ =>
      match findRestaurant s p.restaurant_id with
      | none => Except.error ApiError.attributeError
      | some r =>
          let created := createOrderDoc s (orderDoc s p r)
          Except.ok (created.1,
            { id := created.2, total := (orderDoc s p r).total, status := "placed" })

/-- The request/response view of `POST /orders` including FastAPI's exception
semantics: a raised exception aborts the handler before the (sole) write, so
the store is unchanged on any error. -/
def runPlaceOrder (s : Store) (p : CreateOrder) : Store × Except ApiError OrderResponse :=
  match place_order s p with
  | Except.ok (s2, resp) => (s2, Except.ok resp)
  | Except.error e => (s, Except.error e)

/-- `GET /orders` (`list_orders`): up to `limit` stored orders, where `limit`
is a client-supplied query parameter defaulting to 50. -/
def list_orders (s : Store) (limit : Nat := 50) : List OrderRec :=
  s.orders.take limit

/-! ### Seeding (`seed_demo`) -/

/-- The response body of `POST /seed`. -/
inductive SeedResponse where
  /-- `{"status": "ok", "message": "Data already seeded"}` -/
  | alreadySeeded
  /-- `{"status": "ok", "restaurants": 2, "items": n}` -/
  | seeded (restaurants : Nat) (items : Nat)
  deriving Repr, DecidableEq

/-- First demo restaurant. -/
def rest1 : Restaurant :=
  { name := "Burger Hub"
    description := some ("Juicy burgers and fries")
    cuisine := ["American", "Fast Food"]
    rating := 4.3
    delivery_time_mins := 25
    image_url := some ("https://images.unsplash.com/photo-1550547660-d9450f859349?w=1200&q=60")
    location := some ("Downtown") }

/-- Second demo restaurant. -/
def rest2 : Restaurant :=
  { name := "Curry Palace"
    description := some ("Authentic Indian cuisine")
    cuisine := ["Indian", "Curry"]
    rating := 4.6
    delivery_time_mins := 35
    image_url := some ("https://images.unsplash.com/photo-1604908176997-4312f5b2d3c6?w=1200&q=60")
    location := some ("Midtown") }

/-- The six demo menu items, given the two freshly created restaurant ids. -/
def seedItems (r1_id r2_id : String) : List MenuItem :=
  [ { restaurant_id := r1_id, name := "Classic Burger",
      description := some ("Beef patty, cheese, lettuce"), price := 8.99,
      veg := false, spicy := false,
      image_url := some ("https://images.unsplash.com/photo-1550317138-10000687a72b?w=1200&q=60"),
      category := some ("Burgers") },
    { restaurant_id := r1_id, name := "Veggie Burger",
      description := some ("Grilled veggie patty"), price := 7.49,
      veg := true, spicy := false,
      image_url := some ("https://images.unsplash.com/photo-1606756790138-2614cf5f327f?w=1200&q=60"),
      category := some ("Burgers") },
    { restaurant_id := r1_id, name := "Fries",
      description := some ("Crispy golden fries"), price := 3.49,
      veg := true, spicy := false,
      image_url := some ("https://images.unsplash.com/photo-1540189549336-e6e99c3679fe?w=1200&q=60"),
      category := some ("Sides") },
    { restaurant_id := r2_id, name := "Butter Chicken",
      description := some ("Creamy tomato gravy"), price := 12.99,
      veg := false, spicy := false,
      image_url := some ("https://images.unsplash.com/photo-1628294895950-980525a64300?w=1200&q=60"),
      category := some ("Main") },
    { restaurant_id := r2_id, name := "Paneer Tikka",
      description := some ("Marinated cottage cheese"), price := 10.99,
      veg := true, spicy := true,
      image_url := some ("https://images.unsplash.com/photo-1625944528406-500fd2ecd2ed?w=1200&q=60"),
      category := some ("Starter") },
    { restaurant_id := r2_id, name := "Garlic Naan",
      description := some ("Soft and buttery"), price := 2.49,
      veg := true, spicy := false,
      image_url := some ("https://images.unsplash.com/photo-1625944527995-7e2e0adf33c5?w=1200&q=60"),
      category := some ("Bread") } ]

/-- `POST /seed` (`seed_demo`): when the restaurant collection is non-empty,
report that data is already seeded and perform no write; otherwise create the
two demo restaurants and the six demo menu items. -/
def seed_demo (s : Store) : Store × SeedResponse :=
  if s.restaurants.length > 0 then (s, SeedResponse.alreadySeeded)
  else
    let c1 := createRestaurantDoc s rest1
    let c2 := createRestaurantDoc c1.1 rest2
    let items := seedItems c1.2 c2.2
    let final := items.foldl (fun st it => (createMenuItemDoc st it).1) c2.1
    (final, SeedResponse.seeded 2 items.length)

/-! ### Concrete fixtures used by witnesses and counterexamples -/

/-- A well-formed restaurant id present in the fixture stores. -/
def ridA : String := "aaaaaaaaaaaaaaaaaaaaaaaa"

/-- A well-formed restaurant id that resolves to nothing. -/
def ridMissing : String := "bbbbbbbbbbbbbbbbbbbbbbbb"

/-- The id of the stored "Classic Burger" menu item. -/
def iidBurger : String := "cccccccccccccccccccccccc"

/-- An item id matching no stored menu item. -/
def iidUnknown : String := "dddddddddddddddddddddddd"

/-- The id of a stored menu item that lacks a price field. -/
def iidPriceless : String := "eeeeeeeeeeeeeeeeeeeeeeee"

/-- Stored "Burger Hub" restaurant document. -/
def burgerHubRec : RestaurantRec :=
  { _id := ridA, name := some ("Burger Hub"), description := none,
    cuisine := ["American"], rating := 4.3, delivery_time_mins := 25,
    image_url := none, location := none }

/-- Stored "Classic Burger" menu document, price 8.99. -/
def classicBurgerRec : MenuRec :=
  { _id := iidBurger, restaurant_id := ridA, name := some ("Classic Burger"),
    description := none, price := some 8.99, veg := false, spicy := false,
    image_url := none, category := none }

/-- Store for Scenario A: Burger Hub with one menu item. -/
def scenarioAStore : Store :=
  { restaurants := [burgerHubRec], menuitems := [classicBurgerRec],
    orders := [], nextId := 2 }

/-- Scenario A submission: the stored item at client price 0.01, quantity 2. -/
def scenarioAPayload : CreateOrder :=
  { restaurant_id := ridA, customer_name := "Alice",
    customer_phone := "555-0100", customer_address := "1 Main St",
    items := [{ item_id := iidBurger, name := "Classic Burger",
                price := 0.01, quantity := 2 }] }

/-- The result of a `place_order` call that is known to succeed. -/
def placed (s : Store) (p : CreateOrder) : Store × OrderResponse :=
  ((place_order s p).toOption).getD
    (Store.empty, { id := "", total := 0, status := "" })

/-- The (successful) result of placing the Scenario A order. -/
def scenarioARun : Store × OrderResponse := placed scenarioAStore scenarioAPayload

/-- Store containing no restaurant at all. -/
def c1Store : Store :=
  { restaurants := [], menuitems := [], orders := [], nextId := 0 }

/-- An order naming a well-formed but non-existent restaurant id. -/
def c1Payload : CreateOrder :=
  { restaurant_id := ridMissing, customer_name := "Carol",
    customer_phone := "555-0102", customer_address := "3 Main St",
    items := [{ item_id := iidUnknown, name := "Mystery Item",
                price := 5, quantity := 1 }] }

/-- An order with one matched line and one unmatched "Mystery Item" line. -/
def c3Payload : CreateOrder :=
  { restaurant_id := ridA, customer_name := "Bob",
    customer_phone := "555-0101", customer_address := "2 Main St",
    items := [{ item_id := iidBurger, name := "Wrong Name",
                price := 0.01, quantity := 2 },
              { item_id := iidUnknown, name := "Mystery Item",
                price := 5, quantity := 1 }] }

/-- The result of placing the two-line order. -/
def c3Run : Store × OrderResponse := placed scenarioAStore c3Payload

/-- A malformed (non-ObjectId) restaurant id in an otherwise fine order. -/
def c4Payload : CreateOrder :=
  { scenarioAPayload with restaurant_id := "not-an-objectid" }

/-- A validated order line carrying a negative client price for an unmatched
item id. -/
def c5Payload : CreateOrder :=
  { restaurant_id := ridA, customer_name := "Dave",
    customer_phone := "555-0103", customer_address := "4 Main St",
    items := [{ item_id := iidUnknown, name := "Mystery Item",
                price := -5, quantity := 1 }] }

/-- An arbitrary stored order used to populate the orders collection. -/
def someOrder : Order :=
  { restaurant_id := ridA, restaurant_name := "Burger Hub",
    customer_name := "Bob", customer_phone := "555-0101",
    customer_address := "2 Main St",
    items := [{ item_id := iidBurger, name := "Classic Burger",
                price := 8.99, quantity := 1 }],
    total := 8.99, status := "placed" }

/-- A store holding 51 order documents. -/
def c6Store : Store :=
  { restaurants := [burgerHubRec], menuitems := [],
    orders := (List.range 51).map (fun i => { _id := freshId i, order := someOrder }),
    nextId := 51 }

/-- An order submission with an empty items list. -/
def c7Payload : CreateOrder :=
  { restaurant_id := ridA, customer_name := "Erin",
    customer_phone := "555-0104", customer_address := "5 Main St",
    items := [] }

/-- The result of placing the empty-items order. -/
def c7Run : Store × OrderResponse := placed scenarioAStore c7Payload

/-- A store whose menu already holds 200 items for Burger Hub. -/
def bigMenuStore : Store :=
  { restaurants := [burgerHubRec],
    menuitems := (List.range 200).map (fun i =>
      { _id := freshId i, restaurant_id := ridA, name := some ("Item"),
        description := none, price := some 1, veg := false, spicy := false,
        image_url := none, category := none }),
    orders := [], nextId := 200 }

/-- A new menu-item payload for Burger Hub. -/
def c8Payload : MenuItem :=
  { restaurant_id := ridA, name := "New Dish", description := none, price := 5,
    veg := false, spicy := false, image_url := none, category := none }

/-- The result of creating the new menu item in the small fixture store. -/
def c8Run : Store × String :=
  ((create_menu_item scenarioAStore c8Payload).toOption).getD (Store.empty, "")

/-- A stored menu document that has a name but no price field. -/
def pricelessRec : MenuRec :=
  { _id := iidPriceless, restaurant_id := ridA, name := some ("Daily Special"),
    description := none, price := none, veg := false, spicy := false,
    image_url := none, category := none }

/-- A store whose only menu document lacks its price field. -/
def c10Store : Store :=
  { restaurants := [burgerHubRec], menuitems := [pricelessRec],
    orders := [], nextId := 7 }

/-- An order matching the priceless stored item, client price 4.5. -/
def c10Payload : CreateOrder :=
  { restaurant_id := ridA, customer_name := "Frank",
    customer_phone := "555-0105", customer_address := "6 Main St",
    items := [{ item_id := iidPriceless, name := "Client Special",
                price := 4.5, quantity := 2 }] }

/-- The result of placing the order against the priceless item. -/
def c10Run : Store × OrderResponse := placed c10Store c10Payload

/-- The store resulting from seeding an empty store once. -/
def seededOnce : Store := (seed_demo Store.empty).1

/-! ### General lemmas about the embedding -/

/-- A successful `place_order` call decomposes into: the id was well-formed,
`find_one` hit a restaurant document, and the order document was appended. -/
theorem place_order_ok_elim (s : Store) (p : CreateOrder) (s2 : Store)
    (resp : OrderResponse) (h : place_order s p = Except.ok (s2, resp)) :
    ∃ r, isValidObjectId p.restaurant_id = true ∧
      findRestaurant s p.restaurant_id = some r ∧
      s2 = (createOrderDoc s (orderDoc s p r)).1 ∧
      resp = { id := freshId s.nextId, total := (orderDoc s p r).total,
               status := "placed" } := by
  unfold place_order oid at h
  by_cases hv : isValidObjectId p.restaurant_id
  · rw [if_pos hv] at h
    cases hr : findRestaurant s p.restaurant_id with
    | none => rw [hr] at h; exact absurd h (by simp)
    | some r =>
        rw [hr] at h
        simp only [Except.ok.injEq, Prod.mk.injEq] at h
        exact ⟨r, hv, rfl, h.1.symm, h.2.symm⟩
  · rw [if_neg hv] at h
    exact absurd h (by simp)

/-- The order collection after a successful `place_order` ends with the new
order document. -/
theorem place_order_last_order (s : Store) (p : CreateOrder) (r : RestaurantRec)
    (h : findRestaurant s p.restaurant_id = some r) (s2 : Store)
    (resp : OrderResponse) (hok : place_order s p = Except.ok (s2, resp)) :
    s2.orders.getLast? = some { _id := freshId s.nextId, order := orderDoc s p r } := by
  obtain ⟨r2, _, hr2, hs2, _⟩ := place_order_ok_elim s p s2 resp hok
  rw [h] at hr2
  cases hr2
  rw [hs2]
  exact List.getLast?_concat _

/-- A hit in the `menu_items` dict comes from the stored menu-item collection. -/
theorem menuLookup_mem {s : Store} {rid iid : String} {m : MenuRec}
    (h : menuLookup s rid iid = some m) : m ∈ s.menuitems := by
  unfold menuLookup at h
  have hmem := List.mem_of_find?_eq_some h
  rw [List.mem_reverse] at hmem
  exact (List.mem_filter.mp hmem).1

/-- The reconciled price of a line, written as the claim states it. -/
theorem reconcileItem_price (s : Store) (rid : String) (it : OrderItem) :
    (reconcileItem s rid it).price =
      (match menuLookup s rid it.item_id with
       | some m => m.price.getD it.price
       | none => it.price) := by
  unfold reconcileItem
  cases menuLookup s rid it.item_id <;> rfl

/-- Reconciliation keeps the submitted `item_id` and `quantity`. -/
theorem reconcileItem_id_qty (s : Store) (rid : String) (it : OrderItem) :
    (reconcileItem s rid it).item_id = it.item_id ∧
    (reconcileItem s rid it).quantity = it.quantity := by
  unfold reconcileItem
  cases menuLookup s rid it.item_id <;> exact ⟨rfl, rfl⟩

/-- A successful `create_menu_item` call decomposes into: the id was
well-formed, some restaurant document matched, and the item was appended. -/
theorem create_menu_item_ok_elim (s : Store) (p : MenuItem) (s2 : Store)
    (nid : String) (h : create_menu_item s p = Except.ok (s2, nid)) :
    isValidObjectId p.restaurant_id = true ∧
    (∃ r, findRestaurant s p.restaurant_id = some r) ∧
    s2 = (createMenuItemDoc s p).1 ∧ nid = freshId s.nextId := by
  unfold create_menu_item oid at h
  by_cases hv : isValidObjectId p.restaurant_id
  · rw [if_pos hv] at h
    cases hr : findRestaurant s p.restaurant_id with
    | none => rw [hr] at h; exact absurd h (by simp)
    | some r =>
        rw [hr] at h
        simp only [Except.ok.injEq] at h
        exact ⟨hv, ⟨r, rfl⟩, congrArg Prod.fst h.symm, congrArg Prod.snd h.symm⟩
  · rw [if_neg hv] at h
    exact absurd h (by simp)

/-- The seed loop over menu items never touches the restaurant collection and
adds exactly one menu document per item. -/
theorem seedFold_counts (items : List MenuItem) (st : Store) :
    (items.foldl (fun st2 it => (createMenuItemDoc st2 it).1) st).restaurants
        = st.restaurants ∧
    (items.foldl (fun st2 it => (createMenuItemDoc st2 it).1) st).menuitems.length
        = st.menuitems.length + items.length := by
  induction items generalizing st with
  | nil => exact ⟨rfl, rfl⟩
  | cons a l ih =>
      rw [List.foldl_cons]
      obtain ⟨h1, h2⟩ := ih ((createMenuItemDoc st a).1)
      refine ⟨h1, ?_⟩
      rw [h2]
      have hone : (createMenuItemDoc st a).1.menuitems.length
          = st.menuitems.length + 1 := by
        show (st.menuitems ++ [menuRecOf a (freshId st.nextId)]).length = _
        rw [List.length_append, List.length_singleton]
      rw [hone, List.length_cons]
      omega

/-! ### C1 — unresolved restaurant at order time -/

/-- Claim C1 says an order whose well-formed `restaurant_id` resolves to no
stored restaurant is still created, with `restaurant_name` equal to the
literal `"Restaurant"`.  In the code the `or {}` guard sits inside the
argument of `find_one` rather than around its result, so on a miss `find_one`
returns `None` and the `.get("name", "Restaurant")` call raises
`AttributeError`: the request fails with a 500 and no order is written. -/
theorem C1_unresolved_restaurant_500 :
    isValidObjectId c1Payload.restaurant_id = true ∧
    findRestaurant c1Store c1Payload.restaurant_id = none ∧
    runPlaceOrder c1Store c1Payload = (c1Store, Except.error ApiError.attributeError) ∧
    ApiError.status ApiError.attributeError = 500 := by
  exact ⟨by decide, rfl, rfl, rfl⟩

/-! ### C2 — total computation -/

/-- Claim C2: the total returned (and persisted) by `place_order` is the sum
over the submitted lines of price × quantity — the stored menu price for a
matched line (falling back to the client price only when the stored document
lacks the field), the client price for an unmatched line — rounded to two
decimals exactly once, on the final accumulated sum. -/
theorem C2_total_once_rounded (s : Store) (p : CreateOrder) (s2 : Store)
    (resp : OrderResponse) (h : place_order s p = Except.ok (s2, resp)) :
    resp.total = round2 ((p.items.map (fun it =>
        (match menuLookup s p.restaurant_id it.item_id with
         | some m => m.price.getD it.price
         | none => it.price) * (it.quantity : ℚ))).sum) ∧
    s2.orders.getLast?.map (fun d => d.order.total) = some resp.total := by
  obtain ⟨r, hv, hr, hs2, hresp⟩ := place_order_ok_elim s p s2 resp h
  have hmap : rawTotal s p.restaurant_id p.items =
      (p.items.map (fun it =>
        (match menuLookup s p.restaurant_id it.item_id with
         | some m => m.price.getD it.price
         | none => it.price) * (it.quantity : ℚ))).sum := by
    unfold rawTotal
    refine congrArg List.sum (List.map_congr_left ?_)
    intro it _
    rw [reconcileItem_price]
  constructor
  · rw [hresp]
    show (orderDoc s p r).total = _
    rw [show (orderDoc s p r).total = round2 (rawTotal s p.restaurant_id p.items) from rfl,
        hmap]
  · have hlast := place_order_last_order s p r hr s2 resp h
    rw [hlast, hresp]
    rfl

/-- Witness for C2 at Scenario A. -/
theorem C2_witness :
    scenarioARun.2.total = round2 ((scenarioAPayload.items.map (fun it =>
        (match menuLookup scenarioAStore scenarioAPayload.restaurant_id it.item_id with
         | some m => m.price.getD it.price
         | none => it.price) * (it.quantity : ℚ))).sum) ∧
    scenarioARun.1.orders.getLast?.map (fun d => d.order.total) =
      some scenarioARun.2.total :=
  C2_total_once_rounded scenarioAStore scenarioAPayload scenarioARun.1 scenarioARun.2 rfl

/-- Scenario A evaluates to total 17.98: the stored price 8.99 wins over the
client-submitted 0.01 at quantity 2. -/
theorem scenarioA_total_eval : scenarioARun.2.total = 17.98 := by decide

/-- Rounding happens once, at the end: three unmatched lines of 3.333
accumulate to 9.999 and report as 10.00. -/
theorem rounding_once_eval : round2 (3.333 + 3.333 + 3.333) = 10 := by decide

/-! ### C3 — per-line reconciliation of the persisted items -/

/-- Claim C3: the persisted order has exactly one line per submitted line, in
submission order; a matched line takes its name and price from the stored
menu document (overriding the client values), an unmatched line keeps the
client name and price verbatim, and `item_id` and `quantity` are kept in both
cases.  (The hypothesis that stored documents carry their `name` and `price`
fields holds for every document this service itself writes.) -/
theorem C3_items_snapshot (s : Store) (p : CreateOrder) (s2 : Store)
    (resp : OrderResponse) (h : place_order s p = Except.ok (s2, resp))
    (hw : ∀ m ∈ s.menuitems, m.name.isSome ∧ m.price.isSome) :
    ∃ d, s2.orders.getLast? = some d ∧
      d.order.items = p.items.map (reconcileItem s p.restaurant_id) ∧
      ∀ it ∈ p.items,
        (reconcileItem s p.restaurant_id it).item_id = it.item_id ∧
        (reconcileItem s p.restaurant_id it).quantity = it.quantity ∧
        ((∃ m, menuLookup s p.restaurant_id it.item_id = some m ∧
            m.name = some ((reconcileItem s p.restaurant_id it).name) ∧
            m.price = some ((reconcileItem s p.restaurant_id it).price)) ∨
          (menuLookup s p.restaurant_id it.item_id = none ∧
            (reconcileItem s p.restaurant_id it).name = it.name ∧
            (reconcileItem s p.restaurant_id it).price = it.price)) := by
  obtain ⟨r, hv, hr, hs2, hresp⟩ := place_order_ok_elim s p s2 resp h
  refine ⟨_, place_order_last_order s p r hr s2 resp h, rfl, ?_⟩
  intro it hit
  refine ⟨(reconcileItem_id_qty s p.restaurant_id it).1,
          (reconcileItem_id_qty s p.restaurant_id it).2, ?_⟩
  cases hm : menuLookup s p.restaurant_id it.item_id with
  | some m =>
      left
      obtain ⟨hn, hp⟩ := hw m (menuLookup_mem hm)
      obtain ⟨nm, hnm⟩ := Option.isSome_iff_exists.mp hn
      obtain ⟨pr, hpr⟩ := Option.isSome_iff_exists.mp hp
      exact ⟨m, rfl, by simp [reconcileItem, hm, hnm],
             by simp [reconcileItem, hm, hpr]⟩
  | none =>
      right
      exact ⟨rfl, by simp [reconcileItem, hm], by simp [reconcileItem, hm]⟩

/-- Witness for C3 on a two-line order: one matched, one unmatched. -/
theorem C3_witness :
    ∃ d, c3Run.1.orders.getLast? = some d ∧
      d.order.items = c3Payload.items.map (reconcileItem scenarioAStore c3Payload.restaurant_id) ∧
      ∀ it ∈ c3Payload.items,
        (reconcileItem scenarioAStore c3Payload.restaurant_id it).item_id = it.item_id ∧
        (reconcileItem scenarioAStore c3Payload.restaurant_id it).quantity = it.quantity ∧
        ((∃ m, menuLookup scenarioAStore c3Payload.restaurant_id it.item_id = some m ∧
            m.name = some ((reconcileItem scenarioAStore c3Payload.restaurant_id it).name) ∧
            m.price = some ((reconcileItem scenarioAStore c3Payload.restaurant_id it).price)) ∨
          (menuLookup scenarioAStore c3Payload.restaurant_id it.item_id = none ∧
            (reconcileItem scenarioAStore c3Payload.restaurant_id it).name = it.name ∧
            (reconcileItem scenarioAStore c3Payload.restaurant_id it).price = it.price)) :=
  C3_items_snapshot scenarioAStore c3Payload c3Run.1 c3Run.2 rfl (by decide)

/-- The two-line order totals 22.98 = 8.99 × 2 + 5.00, and its persisted
lines are the reconciled snapshot. -/
theorem scenarioB_eval :
    c3Run.2.total = 22.98 ∧
    c3Run.1.orders.map (fun d => d.order.items.map (fun it => (it.name, it.price))) =
      [[("Classic Burger", 8.99), ("Mystery Item", 5)]] := by
  exact ⟨by decide, by decide⟩

/-! ### C4 — malformed restaurant id -/

/-- Claim C4: a syntactically invalid `restaurant_id` makes `place_order` fail
with the 400 `Invalid id` error, and the order collection is unchanged. -/
theorem C4_malformed_restaurant_id (s : Store) (p : CreateOrder)
    (h : isValidObjectId p.restaurant_id = false) :
    runPlaceOrder s p = (s, Except.error ApiError.invalidId) ∧
    ApiError.status ApiError.invalidId = 400 ∧
    (runPlaceOrder s p).1.orders = s.orders := by
  have hfail : place_order s p = Except.error ApiError.invalidId := by
    unfold place_order oid
    rw [h]
    simp
  refine ⟨?_, rfl, ?_⟩ <;> · unfold runPlaceOrder; rw [hfail]

/-- Witness for C4 at a concrete malformed id. -/
theorem C4_witness :
    isValidObjectId c4Payload.restaurant_id = false ∧
    (runPlaceOrder scenarioAStore c4Payload =
        (scenarioAStore, Except.error ApiError.invalidId) ∧
      ApiError.status ApiError.invalidId = 400 ∧
      (runPlaceOrder scenarioAStore c4Payload).1.orders = scenarioAStore.orders) :=
  ⟨by decide, C4_malformed_restaurant_id scenarioAStore c4Payload (by decide)⟩

/-! ### C5 — order-line invariants -/

/-- Counterexample to claim C5: `OrderItem.price` carries no `ge=0` bound, so
a validated submission can carry a negative price on an unmatched line, and
`place_order` persists it verbatim: the stored order line has price −5. -/
theorem C5_counterexample :
    c5Payload.Valid ∧
    (place_order scenarioAStore c5Payload).toOption.map
      (fun out => out.1.orders.map (fun d => d.order.items.map OrderItem.price)) =
      some [[-5]] ∧
    ¬ (0 : ℚ) ≤ -5 := by
  exact ⟨by decide, by decide, by decide⟩

/-- Claim C5, amended: validation enforces only `quantity ≥ 1`, and
`place_order` preserves the submitted quantities, so every persisted order
line of a validated submission has quantity ≥ 1; prices are unconstrained
(they may be negative, as the counterexample shows). -/
theorem C5_amended_quantity_invariant (s : Store) (p : CreateOrder) (s2 : Store)
    (resp : OrderResponse) (hv : p.Valid) (h : place_order s p = Except.ok (s2, resp)) :
    ∃ d, s2.orders.getLast? = some d ∧ ∀ it ∈ d.order.items, 1 ≤ it.quantity := by
  obtain ⟨r, _, hr, hs2, _⟩ := place_order_ok_elim s p s2 resp h
  refine ⟨_, place_order_last_order s p r hr s2 resp h, ?_⟩
  intro it hit
  have hit2 : it ∈ p.items.map (reconcileItem s p.restaurant_id) := hit
  obtain ⟨it0, hit0, rfl⟩ := List.mem_map.mp hit2
  rw [(reconcileItem_id_qty s p.restaurant_id it0).2]
  exact hv it0 hit0

/-- Witness for the amended C5 at Scenario A. -/
theorem C5_witness :
    ∃ d, scenarioARun.1.orders.getLast? = some d ∧
      ∀ it ∈ d.order.items, 1 ≤ it.quantity :=
  C5_amended_quantity_invariant scenarioAStore scenarioAPayload
    scenarioARun.1 scenarioARun.2 (by decide) rfl

/-! ### C6 — order-listing limit -/

/-- Counterexample to claim C6: `limit` is a client query parameter, only its
default is 50; with 51 stored orders and `limit=51` the listing returns 51
records. -/
theorem C6_counterexample : 50 < (list_orders c6Store 51).length := by decide

/-- Claim C6, amended: the listing returns at most `limit` records where
`limit` is the client-supplied query parameter; only its default value is 50,
so a request without an explicit limit returns at most 50 records. -/
theorem C6_amended_limit_is_client_controlled (s : Store) (limit : Nat) :
    (list_orders s limit).length ≤ limit ∧ (list_orders s).length ≤ 50 :=
  ⟨List.length_take_le limit s.orders, List.length_take_le 50 s.orders⟩

/-! ### C7 — empty items list -/

/-- Counterexample to claim C7: `items` carries no non-emptiness constraint,
so an order with an empty items list passes validation and is persisted, with
an empty items list and total 0. -/
theorem C7_counterexample :
    c7Payload.items = [] ∧ c7Payload.Valid ∧
    (place_order scenarioAStore c7Payload).toOption.map
      (fun out => out.1.orders.map (fun d => (d.order.items, d.order.total))) =
      some [([], 0)] := by
  exact ⟨rfl, by decide, by decide⟩

/-- Claim C7, amended: an order submission with an empty items list is
accepted whenever the restaurant id resolves, and the persisted order then
has an empty items list and total 0. -/
theorem C7_amended_empty_items_accepted (s : Store) (p : CreateOrder)
    (s2 : Store) (resp : OrderResponse) (he : p.items = [])
    (h : place_order s p = Except.ok (s2, resp)) :
    resp.total = 0 ∧
    ∃ d, s2.orders.getLast? = some d ∧ d.order.items = [] ∧ d.order.total = 0 := by
  obtain ⟨r, hv, hr, hs2, hresp⟩ := place_order_ok_elim s p s2 resp h
  have hraw : rawTotal s p.restaurant_id [] = 0 := rfl
  have htot : (orderDoc s p r).total = 0 := by
    show round2 (rawTotal s p.restaurant_id p.items) = 0
    rw [he, hraw]
    decide
  constructor
  · rw [hresp]
    exact htot
  · refine ⟨_, place_order_last_order s p r hr s2 resp h, ?_, htot⟩
    show p.items.map (reconcileItem s p.restaurant_id) = []
    rw [he]
    rfl

/-- Witness for the amended C7 at the concrete empty-items order. -/
theorem C7_witness :
    c7Run.2.total = 0 ∧
    ∃ d, c7Run.1.orders.getLast? = some d ∧
      d.order.items = [] ∧ d.order.total = 0 :=
  C7_amended_empty_items_accepted scenarioAStore c7Payload c7Run.1 c7Run.2 rfl rfl

/-! ### C8 — menu-item creation -/

/-- Counterexample to claim C8's retrievability half: with 200 items already
stored for the restaurant, a newly created 201st item is persisted, yet the
200-record listing cap leaves it absent from `list_menu`. -/
theorem C8_counterexample :
    (create_menu_item bigMenuStore c8Payload).toOption.map
      (fun out => ((list_menu out.1 c8Payload.restaurant_id).length,
        (list_menu out.1 c8Payload.restaurant_id).all (fun d => d._id != out.2))) =
      some (200, true) := by
  set_option maxRecDepth 8192 in decide

/-- Claim C8, amended: `create_menu_item` fails with the 404 exactly when the
payload's restaurant id is well-formed but resolves to no stored restaurant;
when it resolves, the item is persisted under the returned id and is
retrievable via `list_menu` provided the restaurant held fewer than 200 menu
items beforehand. -/
theorem C8_menu_item_creation (s : Store) (p : MenuItem) :
    (create_menu_item s p = Except.error ApiError.restaurantNotFound ↔
      isValidObjectId p.restaurant_id = true ∧
      findRestaurant s p.restaurant_id = none) ∧
    ∀ s2 nid, create_menu_item s p = Except.ok (s2, nid) →
      (s.menuitems.filter (fun m => m.restaurant_id == p.restaurant_id)).length < 200 →
      ∃ d ∈ list_menu s2 p.restaurant_id,
        d._id = nid ∧ d.name = some (p.name) ∧ d.price = some (p.price) := by
  constructor
  · unfold create_menu_item oid
    by_cases hv : isValidObjectId p.restaurant_id
    · rw [if_pos hv]
      cases hr : findRestaurant s p.restaurant_id with
      | none => simp [hv]
      | some r => simp [hv]
    · rw [if_neg hv]
      simp [hv]
  · intro s2 nid hok hlen
    obtain ⟨hv, ⟨r, hr⟩, hs2, hnid⟩ := create_menu_item_ok_elim s p s2 nid hok
    subst hs2
    have hmem : menuRecOf p (freshId s.nextId) ∈
        list_menu (createMenuItemDoc s p).1 p.restaurant_id := by
      show menuRecOf p (freshId s.nextId) ∈
        ((s.menuitems ++ [menuRecOf p (freshId s.nextId)]).filter
          (fun m => m.restaurant_id == p.restaurant_id)).take 200
      rw [List.filter_append]
      have hsingle : List.filter (fun m => m.restaurant_id == p.restaurant_id)
          [menuRecOf p (freshId s.nextId)] = [menuRecOf p (freshId s.nextId)] := by
        simp [menuRecOf]
      rw [hsingle]
      have hle : ((s.menuitems.filter (fun m => m.restaurant_id == p.restaurant_id))
          ++ [menuRecOf p (freshId s.nextId)]).length ≤ 200 := by
        rw [List.length_append, List.length_singleton]
        omega
      rw [List.take_of_length_le hle]
      exact List.mem_append_right _ (by simp)
    exact ⟨menuRecOf p (freshId s.nextId), hmem, hnid.symm, rfl, rfl⟩

/-- Witness for the amended C8: creating "New Dish" in the Scenario A store
succeeds and the item is retrievable. -/
theorem C8_witness :
    ∃ d ∈ list_menu c8Run.1 c8Payload.restaurant_id,
      d._id = c8Run.2 ∧ d.name = some (c8Payload.name) ∧
      d.price = some (c8Payload.price) :=
  (C8_menu_item_creation scenarioAStore c8Payload).2 c8Run.1 c8Run.2 rfl (by decide)

/-! ### C9 — seeding idempotence -/

/-- Claim C9: seeding is idempotent — a non-empty restaurant collection makes
`seed_demo` report "already seeded" with no write; an empty one gets exactly
two restaurants and six more menu items; seeding twice from the empty store
leaves exactly 2 restaurants and 6 menu items. -/
theorem C9_seed_idempotent (s : Store) :
    (s.restaurants ≠ [] → seed_demo s = (s, SeedResponse.alreadySeeded)) ∧
    (s.restaurants = [] →
      (seed_demo s).1.restaurants.length = 2 ∧
      (seed_demo s).1.menuitems.length = s.menuitems.length + 6 ∧
      (seed_demo s).2 = SeedResponse.seeded 2 6) ∧
    (seed_demo seededOnce).1.restaurants.length = 2 ∧
    (seed_demo seededOnce).1.menuitems.length = 6 := by
  refine ⟨?_, ?_, by decide, by decide⟩
  · intro hne
    unfold seed_demo
    rw [if_pos (List.length_pos.mpr hne)]
  · intro hemp
    have hguard : ¬ s.restaurants.length > 0 := by
      rw [hemp]
      simp
    have hseed : seed_demo s =
        ((seedItems (createRestaurantDoc s rest1).2
            (createRestaurantDoc (createRestaurantDoc s rest1).1 rest2).2).foldl
          (fun st2 it => (createMenuItemDoc st2 it).1)
          (createRestaurantDoc (createRestaurantDoc s rest1).1 rest2).1,
         SeedResponse.seeded 2 6) := by
      unfold seed_demo
      rw [if_neg hguard]
      rfl
    obtain ⟨hrest, hlen⟩ := seedFold_counts
      (seedItems (createRestaurantDoc s rest1).2
        (createRestaurantDoc (createRestaurantDoc s rest1).1 rest2).2)
      (createRestaurantDoc (createRestaurantDoc s rest1).1 rest2).1
    refine ⟨?_, ?_, ?_⟩
    · rw [hseed]
      dsimp only
      rw [hrest]
      show ((s.restaurants ++ [_]) ++ [_]).length = 2
      rw [hemp]
      rfl
    · rw [hseed]
      dsimp only
      rw [hlen]
      rfl
    · rw [hseed]

/-- Witness for C9: the already-seeded branch at the once-seeded store, and
the fresh-seed branch at the empty store. -/
theorem C9_witness :
    seed_demo seededOnce = (seededOnce, SeedResponse.alreadySeeded) ∧
    ((seed_demo Store.empty).1.restaurants.length = 2 ∧
      (seed_demo Store.empty).1.menuitems.length = Store.empty.menuitems.length + 6 ∧
      (seed_demo Store.empty).2 = SeedResponse.seeded 2 6) :=
  ⟨(C9_seed_idempotent seededOnce).1 (by decide),
   (C9_seed_idempotent Store.empty).2.1 rfl⟩

/-! ### C10 — field-by-field fallback for matched lines -/

/-- Claim C10: for a matched line, server data wins field-by-field — a stored
document missing its `price` (resp. `name`) field silently yields the client
price (resp. name) for that line instead of failing, while a present field
always overrides the client value. -/
theorem C10_field_level_fallback (s : Store) (p : CreateOrder) (s2 : Store)
    (resp : OrderResponse) (h : place_order s p = Except.ok (s2, resp)) :
    ∃ d, s2.orders.getLast? = some d ∧
      d.order.items = p.items.map (reconcileItem s p.restaurant_id) ∧
      ∀ it : OrderItem, ∀ m : MenuRec,
        menuLookup s p.restaurant_id it.item_id = some m →
        (m.price = none → (reconcileItem s p.restaurant_id it).price = it.price) ∧
        (m.name = none → (reconcileItem s p.restaurant_id it).name = it.name) ∧
        (∀ q, m.price = some q → (reconcileItem s p.restaurant_id it).price = q) ∧
        (∀ nm, m.name = some nm → (reconcileItem s p.restaurant_id it).name = nm) := by
  obtain ⟨r, _, hr, hs2, _⟩ := place_order_ok_elim s p s2 resp h
  refine ⟨_, place_order_last_order s p r hr s2 resp h, rfl, ?_⟩
  intro it m hm
  refine ⟨?_, ?_, ?_, ?_⟩
  · intro hq
    simp [reconcileItem, hm, hq]
  · intro hn
    simp [reconcileItem, hm, hn]
  · intro q hq
    simp [reconcileItem, hm, hq]
  · intro nm hn
    simp [reconcileItem, hm, hn]

/-- Witness for C10 against the store whose matched item lacks a price. -/
theorem C10_witness :
    ∃ d, c10Run.1.orders.getLast? = some d ∧
      d.order.items = c10Payload.items.map (reconcileItem c10Store c10Payload.restaurant_id) ∧
      ∀ it : OrderItem, ∀ m : MenuRec,
        menuLookup c10Store c10Payload.restaurant_id it.item_id = some m →
        (m.price = none → (reconcileItem c10Store c10Payload.restaurant_id it).price = it.price) ∧
        (m.name = none → (reconcileItem c10Store c10Payload.restaurant_id it).name = it.name) ∧
        (∀ q, m.price = some q → (reconcileItem c10Store c10Payload.restaurant_id it).price = q) ∧
        (∀ nm, m.name = some nm → (reconcileItem c10Store c10Payload.restaurant_id it).name = nm) :=
  C10_field_level_fallback c10Store c10Payload c10Run.1 c10Run.2 rfl

/-- Concrete run against the priceless stored item: the client price 4.5 is
used (total 9.00) while the stored name "Daily Special" still wins. -/
theorem c10_fallback_eval :
    c10Run.2.total = 9 ∧
    c10Run.1.orders.map (fun d => d.order.items.map (fun it => (it.name, it.price))) =
      [[("Daily Special", 4.5)]] :=
  ⟨by decide, by decide⟩

end FoodDelivery
